import Mathlib

/-!
Shallow embedding of the Remootio Home Assistant custom integration:
the config-flow onboarding logic (`config_flow.py`) and the
connection-helper utilities (`utils.py`).

Device communication is delegated to the external `aioremootio` library
and the Home Assistant framework; their observable behaviour at the
boundary of this repository is modelled by an explicit environment
(`DeviceEnv`) recording the outcome of each network interaction, and
the constants from `const.py` (minimum API version, timeout, poll
delay) appear as parameters (`minVer`, `fuel`).
-/

namespace Remootio

/-- The two-value device-class enumeration offered by the form
(`CoverDeviceClass.GARAGE` / `CoverDeviceClass.GATE`). -/
inductive DeviceClass
  | garage
  | gate
  deriving DecidableEq, Repr

/-- Outcome of the WebSocket probe (`session.ws_connect`) in
`check_device_availability`: it can succeed, fail with
`aiohttp.ClientError`, fail with `asyncio.TimeoutError`, or fail with
some other exception. -/
inductive WsOutcome
  | success
  | clientError
  | timeoutError
  | raisesOther
  deriving DecidableEq, Repr

/-- Outcome of the fallback TCP probe: `socket.connect_ex` returns an
error code (0 means success), or the socket call raises. -/
inductive TcpOutcome
  | result (code : Int)
  | raisesOther
  deriving DecidableEq, Repr

/-- Outcome of creating/entering the `RemootioClient` session:
success, `RemootioClientConnectionEstablishmentError`,
`RemootioClientAuthenticationError`, `asyncio.TimeoutError`, or
`aiohttp.ClientError`. -/
inductive ClientEnterOutcome
  | ok
  | connectionEstablishment
  | authenticationFailure
  | timeoutErr
  | clientErr
  deriving DecidableEq, Repr

/-- The client state (`aioremootio.enums.State`) as far as this
repository inspects it: `NO_SENSOR_INSTALLED` versus anything else. -/
inductive RState
  | noSensorInstalled
  | opened
  | closed
  | stateUnknown
  deriving DecidableEq, Repr

/-- Exceptions raised by the utility layer (`utils.py`).
`unsupportedApiVersion` stands for `UnsupportedRemootioApiVersionError`
and `unsupportedDevice` for `UnsupportedRemootioDeviceError` from the
integration's `exceptions.py`. -/
inductive UtilExn
  | configEntryNotReady (msg : String)
  | unsupportedDevice
  | unsupportedApiVersion
  | connectionEstablishment
  | authentication
  | assertionError
  | other
  deriving DecidableEq, Repr

/-- Modelled from the spec: `exceptions.py` is not under `src/`; the
spec classifies an unsupported API version together with a missing
sensor as device-capability errors that abort the flow, so
`UnsupportedRemootioApiVersionError` is modelled as a subclass of
`UnsupportedRemootioDeviceError` (true iff the exception is caught by
an `except UnsupportedRemootioDeviceError` clause). -/
def isUnsupportedRemootioDeviceError : UtilExn → Bool
  | .unsupportedDevice => true
  | .unsupportedApiVersion => true
  | _ => false

/-- Exceptions raised by `validate_input` in `config_flow.py`
(`CannotConnect`, `InvalidHost`, ..., `DeviceNotSupported`), plus
un-translated exceptions that propagate through it. -/
inductive FlowExn
  | cannotConnect
  | invalidHost
  | invalidApiSecretKey
  | invalidApiAuthKey
  | invalidAuth
  | deviceNotSupported
  | propagated (e : UtilExn)
  deriving DecidableEq, Repr

/-- Key of the `errors` dict filled by `async_step_user`: `"base"`,
`CONF_HOST`, `CONF_API_SECRET_KEY` or `CONF_API_AUTH_KEY`. -/
inductive FieldKey
  | base
  | host
  | apiSecretKey
  | apiAuthKey
  deriving DecidableEq, Repr

/-- A record of the network interactions performed while handling a
submission: the availability probe of `check_device_availability`
(with the host and port it targets) and the `RemootioClient` session. -/
inductive NetEvent
  | probe (host : String) (port : Nat)
  | clientConnect (host : String)
  deriving DecidableEq, Repr

/-- The environment a run of the flow observes: outcomes of each
network interaction, the device-reported state, API version and serial
number.  `connected` gives the value of the client's `connected` flag
at the k-th poll of the wait loop. -/
structure DeviceEnv where
  ws : WsOutcome
  tcp : TcpOutcome
  clientEnter : ClientEnterOutcome
  connected : Nat → Bool
  state : RState
  apiVersion : Nat
  serialNumber : String

/-- The user-submitted form data (`STEP_USER_DATA_SCHEMA`). -/
structure UserInput where
  host : String
  apiSecretKey : String
  apiAuthKey : String
  deviceClass : DeviceClass
  deriving DecidableEq, Repr

/-- The `CONF_DATA` payload of a successful validation. -/
structure EntryData where
  host : String
  apiSecretKey : String
  apiAuthKey : String
  deviceClass : DeviceClass
  serialNumber : String
  deriving DecidableEq, Repr

/-- Return value of `validate_input`: a title and the entry data. -/
structure ValidationResult where
  title : String
  data : EntryData
  deriving DecidableEq, Repr

/-- The `RemootioClient` returned by `create_client`, as far as the
claims inspect it: its device-reported serial number. -/
structure ClientHandle where
  serialNumber : String
  deriving DecidableEq, Repr

/-- Python's `host.split(':')` on the character list: split at every
colon, keeping empty parts. -/
def splitCharsOnColon : List Char → List (List Char)
  | [] => [[]]
  | c :: cs =>
    let r := splitCharsOnColon cs
    if c = ':' then [] :: r
    else
      match r with
      | [] => [[c]]
      | g :: gs => (c :: g) :: gs

/-- Python's `host.split(':')`. -/
def split_colon (s : String) : List String :=
  (splitCharsOnColon s.data).map String.mk

/-- Python's `int(p)` succeeds on the strings this flow can produce
(non-empty, all decimal digits). -/
def str_isNat (s : String) : Bool :=
  !s.data.isEmpty && s.data.all Char.isDigit

/-- Decimal value of a digit string. -/
def str_toNat (s : String) : Nat :=
  s.data.foldl (fun n c => n * 10 + (c.toNat - 48)) 0

/-- Python's `int(p)` for the port suffix: a non-empty digit string
parses to its decimal value, anything else raises `ValueError`
(modelled as `none`). -/
def str_toNat? (s : String) : Option Nat :=
  if str_isNat s then some (str_toNat s) else none

/-- Python's `str.upper()` (ASCII case mapping, character by
character). -/
def str_upper (s : String) : String :=
  String.mk (s.data.map Char.toUpper)

/-- An uppercase hexadecimal digit. -/
def isUpperHexChar (c : Char) : Bool :=
  c.isDigit || ('A' ≤ c && c ≤ 'F')

/-- Modelled from the spec: `CONNECTION_OPTION_REGEX_API_SECRET_KEY`
and `CONNECTION_OPTION_REGEX_API_AUTH_KEY` live in the external
`aioremootio` library; the spec describes both as a 64-character
uppercase-hex pattern. -/
def matchesKeyRegex (s : String) : Bool :=
  s.data.length == 64 && s.data.all isUpperHexChar

/-- A character allowed in the host part (letters, digits, dots,
hyphens). -/
def isHostChar (c : Char) : Bool :=
  c.isAlphanum || c == '.' || c == '-'

/-- A non-empty hostname / dotted-IP part. -/
def isHostLabel (s : String) : Bool :=
  !s.data.isEmpty && s.data.all isHostChar

/-- Modelled from the spec: `CONNECTION_OPTION_REGEX_HOST` lives in
the external `aioremootio` library; the spec describes it as a
hostname-or-dotted-IP pattern with an optional `:port` suffix. -/
def matchesHostRegex (s : String) : Bool :=
  match split_colon s with
  | [h] => isHostLabel h
  | [h, p] => isHostLabel h && str_isNat p
  | _ => false

/-- The head of `get_serial_number`:
`host, port = connection_options.host.split(':') if ':' in
connection_options.host else (connection_options.host, 8080)` followed
by `int(port)`.  A split into other than two parts while a colon is
present makes the tuple unpacking raise `ValueError` (`none`), as does
a non-numeric port. -/
def parseHostPort (s : String) : Option (String × Nat) :=
  if s.data.contains ':' then
    match split_colon s with
    | [h, p] =>
      match str_toNat? p with
      | some n => some (h, n)
      | none => none
    | _ => none
  else some (s, 8080)

/-- `_wait_for_connected`: under the overall timeout, poll the
client's `connected` flag once per `REMOOTIO_DELAY` tick; `fuel` is
the number of polls the timeout allows.  Returns `true` as soon as the
flag is observed, `false` when the timeout elapses first. -/
def wait_for_connected (connected : Nat → Bool) : Nat → Nat → Bool
  | 0, _ => false
  | fuel + 1, k => if connected k then true else wait_for_connected connected fuel (k + 1)

/-- The body of `check_device_availability` up to the outer broad
`except`: the WebSocket probe, with `aiohttp.ClientError` and
`asyncio.TimeoutError` triggering the fallback TCP probe
(`connect_ex`, 0 meaning success); any other exception, from either
probe, escapes to the outer handler (`Except.error`). -/
def check_device_availability_inner (ws : WsOutcome) (tcp : TcpOutcome) : Except Unit Bool :=
  match ws with
  | .success => .ok true
  | .clientError =>
    match tcp with
    | .result code => .ok (code == 0)
    | .raisesOther => .error ()
  | .timeoutError =>
    match tcp with
    | .result code => .ok (code == 0)
    | .raisesOther => .error ()
  | .raisesOther => .error ()

/-- `check_device_availability`: the inner probe logic wrapped in the
outer `except Exception: return False`. -/
def check_device_availability (ws : WsOutcome) (tcp : TcpOutcome) : Bool :=
  match check_device_availability_inner ws tcp with
  | .ok b => b
  | .error _ => false

/-- The diagnostic message `get_serial_number` attaches to the
not-ready failure when the availability probe fails. -/
def notAvailableMsg (host : String) (port : Nat) : String :=
  "Device not available at " ++ host ++ ":" ++ toString port ++ ". Please check if:\n" ++
  "1. The device is powered on\n" ++
  "2. Connected to your network\n" ++
  "3. The IP address and port are correct (default port is 8080)\n" ++
  "4. API access is enabled in the Remootio app\n" ++
  "5. No firewall is blocking the connection"

/-- `get_serial_number`: parse the host/port, probe availability
(raising `ConfigEntryNotReady` when unreachable), open the client
session, wait for the `connected` flag, then run the sensor check, the
API-version check (`api_version < minVer` raises
`UnsupportedRemootioApiVersionError`) and return the serial number.
`asyncio.TimeoutError` and `aiohttp.ClientError` from the session are
re-raised as `ConfigEntryNotReady`; the integration's own exceptions
propagate.  The second component records the network interactions
performed. -/
def get_serial_number (minVer fuel : Nat) (env : DeviceEnv) (host : String) :
    Except UtilExn String × List NetEvent :=
  match parseHostPort host with
  | none => (.error .other, [])
  | some (h, p) =>
    if !check_device_availability env.ws env.tcp then
      (.error (.configEntryNotReady (notAvailableMsg h p)), [.probe h p])
    else
      match env.clientEnter with
      | .timeoutErr =>
        (.error (.configEntryNotReady "Connection failed"), [.probe h p, .clientConnect h])
      | .clientErr =>
        (.error (.configEntryNotReady "Connection failed"), [.probe h p, .clientConnect h])
      | .connectionEstablishment =>
        (.error .connectionEstablishment, [.probe h p, .clientConnect h])
      | .authenticationFailure =>
        (.error .authentication, [.probe h p, .clientConnect h])
      | .ok =>
        if wait_for_connected env.connected fuel 0 then
          if env.state == .noSensorInstalled then
            (.error .unsupportedDevice, [.probe h p, .clientConnect h])
          else if env.apiVersion < minVer then
            (.error .unsupportedApiVersion, [.probe h p, .clientConnect h])
          else
            (.ok env.serialNumber, [.probe h p, .clientConnect h])
        else
          (.error (.configEntryNotReady "Failed to connect to device"), [.probe h p, .clientConnect h])

/-- The `except` clauses of `validate_input`:
`RemootioClientConnectionEstablishmentError` becomes `CannotConnect`,
`RemootioClientAuthenticationError` becomes `InvalidAuth`, and any
`UnsupportedRemootioDeviceError` (including the API-version subclass,
see `isUnsupportedRemootioDeviceError`) becomes `DeviceNotSupported`;
every other exception propagates unchanged. -/
def translateUtilExn (e : UtilExn) : FlowExn :=
  match e with
  | .connectionEstablishment => .cannotConnect
  | .authentication => .invalidAuth
  | .unsupportedDevice => .deviceNotSupported
  | .unsupportedApiVersion => .deviceNotSupported
  | e => .propagated e

/-- `validate_input`: regex-check the host, then each key after
uppercasing it, raising the per-field exceptions; then fetch the
serial number and build the normalized result (uppercased keys, the
selected device class, the device serial number). -/
def validate_input (minVer fuel : Nat) (env : DeviceEnv) (data : UserInput) :
    Except FlowExn ValidationResult × List NetEvent :=
  if !matchesHostRegex data.host then (.error .invalidHost, [])
  else if !matchesKeyRegex (str_upper data.apiSecretKey) then (.error .invalidApiSecretKey, [])
  else if !matchesKeyRegex (str_upper data.apiAuthKey) then (.error .invalidApiAuthKey, [])
  else
    match get_serial_number minVer fuel env data.host with
    | (.ok sn, ev) =>
      (.ok { title := "Remootio Device (Host: " ++ data.host ++ ", S/N: " ++ sn ++ ")"
             data := { host := data.host
                       apiSecretKey := str_upper data.apiSecretKey
                       apiAuthKey := str_upper data.apiAuthKey
                       deviceClass := data.deviceClass
                       serialNumber := sn } }, ev)
    | (.error e, ev) => (.error (translateUtilExn e), ev)

/-- Result of one `async_step_user` submission: a created entry (with
its unique id), an abort, or the form re-shown with error codes. -/
inductive FlowResult
  | createEntry (uniqueId title : String) (data : EntryData)
  | abortFlow (reason : String)
  | showForm (errors : List (FieldKey × String))
  deriving DecidableEq, Repr

/-- `async_step_user` on a submission: run `validate_input`, map each
flow exception to its error code (or abort for `DeviceNotSupported`),
and on success set the serial number as the unique id, aborting when
an entry with that unique id already exists (`existing` is the list of
serial numbers of the already-configured entries). -/
def async_step_user (minVer fuel : Nat) (env : DeviceEnv) (existing : List String)
    (userInput : UserInput) : FlowResult × List NetEvent :=
  match validate_input minVer fuel env userInput with
  | (.ok r, ev) =>
    if r.data.serialNumber ∈ existing then (.abortFlow "already_configured", ev)
    else (.createEntry r.data.serialNumber r.title r.data, ev)
  | (.error .cannotConnect, ev) => (.showForm [(.base, "cannot_connect")], ev)
  | (.error .invalidHost, ev) => (.showForm [(.host, "host_invalid")], ev)
  | (.error .invalidApiSecretKey, ev) =>
    (.showForm [(.apiSecretKey, "secret__api_secret_key_invalid")], ev)
  | (.error .invalidApiAuthKey, ev) =>
    (.showForm [(.apiAuthKey, "secret__api_auth_key_invalid")], ev)
  | (.error .invalidAuth, ev) => (.showForm [(.base, "invalid_auth")], ev)
  | (.error .deviceNotSupported, ev) => (.abortFlow "unsupported_device", ev)
  | (.error (.propagated _), ev) => (.showForm [(.base, "unknown")], ev)

/-- `create_client`: open the session, wait for the `connected` flag;
once connected the sensor check runs with `raise_error=False` (log
only), the API-version check may raise, and when an expected serial
number is given an `assert` compares it with the device-reported one
before the client is returned. -/
def create_client (minVer fuel : Nat) (env : DeviceEnv) (expected : Option String) :
    Except UtilExn ClientHandle :=
  match env.clientEnter with
  | .timeoutErr => .error (.configEntryNotReady "Connection failed")
  | .clientErr => .error (.configEntryNotReady "Connection failed")
  | .connectionEstablishment => .error .connectionEstablishment
  | .authenticationFailure => .error .authentication
  | .ok =>
    if wait_for_connected env.connected fuel 0 then
      if env.apiVersion < minVer then .error .unsupportedApiVersion
      else
        match expected with
        | some s =>
          if s == env.serialNumber then .ok { serialNumber := env.serialNumber }
          else .error .assertionError
        | none => .ok { serialNumber := env.serialNumber }
    else .error (.configEntryNotReady "Failed to connect to device")

/-- A 64-character uppercase-hex API key. -/
def keyA : String := String.mk (List.replicate 64 'A')

/-- A second 64-character uppercase-hex API key. -/
def keyB : String := String.mk (List.replicate 64 'B')

/-- The lowercase form of `keyA`. -/
def keyLowA : String := String.mk (List.replicate 64 'a')

/-- The lowercase form of `keyB`. -/
def keyLowB : String := String.mk (List.replicate 64 'b')

/-- A reachable, supported device that connects at the first poll. -/
def envReachOk : DeviceEnv :=
  { ws := .success, tcp := .result 0, clientEnter := .ok,
    connected := fun _ => true, state := .opened, apiVersion := 2, serialNumber := "SN-1" }

/-- An unreachable device: the WebSocket probe fails with a client
error and the TCP probe returns a non-zero error code. -/
def envUnreachable : DeviceEnv :=
  { ws := .clientError, tcp := .result 1, clientEnter := .ok,
    connected := fun _ => false, state := .opened, apiVersion := 2, serialNumber := "SN-1" }

/-- A reachable device whose connected flag is never observed within
the timeout. -/
def envNeverConnects : DeviceEnv :=
  { ws := .success, tcp := .result 0, clientEnter := .ok,
    connected := fun _ => false, state := .opened, apiVersion := 2, serialNumber := "SN-1" }

/-- A reachable, connecting device that reports no sensor installed. -/
def envNoSensor : DeviceEnv :=
  { ws := .success, tcp := .result 0, clientEnter := .ok,
    connected := fun _ => true, state := .noSensorInstalled, apiVersion := 2,
    serialNumber := "SN-1" }

/-- A reachable, connecting device reporting API version 1. -/
def envLowApi : DeviceEnv :=
  { ws := .success, tcp := .result 0, clientEnter := .ok,
    connected := fun _ => true, state := .opened, apiVersion := 1, serialNumber := "SN-A" }

/-- A well-formed submission with uppercase keys. -/
def inputGood : UserInput :=
  { host := "192.168.1.20", apiSecretKey := keyA, apiAuthKey := keyB, deviceClass := .garage }

/-- A well-formed submission whose keys are lowercase hex. -/
def inputLower : UserInput :=
  { host := "192.168.1.20", apiSecretKey := keyLowA, apiAuthKey := keyLowB,
    deviceClass := .gate }

/-- A submission whose secret key fails the key pattern. -/
def inputBadSecret : UserInput :=
  { host := "192.168.1.20", apiSecretKey := "zz", apiAuthKey := keyB, deviceClass := .garage }

/-- A submission whose auth key fails the key pattern. -/
def inputBadAuth : UserInput :=
  { host := "192.168.1.20", apiSecretKey := keyA, apiAuthKey := "zz", deviceClass := .garage }

/-- A submission whose host fails the host pattern. -/
def inputBadHost : UserInput :=
  { host := "bad host!", apiSecretKey := keyA, apiAuthKey := keyB, deviceClass := .garage }

/-- The entry data produced for `inputGood` against `envReachOk`. -/
def dataGood : EntryData :=
  { host := "192.168.1.20", apiSecretKey := keyA, apiAuthKey := keyB,
    deviceClass := .garage, serialNumber := "SN-1" }

/-- The validation result produced for `inputGood` against `envReachOk`. -/
def recGood : ValidationResult :=
  { title := "Remootio Device (Host: 192.168.1.20, S/N: SN-1)", data := dataGood }

/-- The validation result produced for `inputLower` against `envReachOk`. -/
def recLower : ValidationResult :=
  { title := "Remootio Device (Host: 192.168.1.20, S/N: SN-1)"
    data := { host := "192.168.1.20", apiSecretKey := keyA, apiAuthKey := keyB,
              deviceClass := .gate, serialNumber := "SN-1" } }

theorem splitCharsOnColon_ne_nil (cs : List Char) : splitCharsOnColon cs ≠ [] := by
  cases cs with
  | nil => simp [splitCharsOnColon]
  | cons c cs =>
    by_cases h : c = ':'
    · simp [splitCharsOnColon, h]
    · simp only [splitCharsOnColon, if_neg h]
      cases splitCharsOnColon cs <;> simp

theorem splitCharsOnColon_of_not_mem (cs : List Char) (h : ':' ∉ cs) :
    splitCharsOnColon cs = [cs] := by
  induction cs with
  | nil => rfl
  | cons c t ih =>
    have hc : ¬ c = ':' := by
      intro he
      exact h (by rw [he]; exact List.mem_cons_self ':' t)
    have ht : ':' ∉ t := fun hm => h (List.mem_cons_of_mem c hm)
    simp [splitCharsOnColon, hc, ih ht]

theorem splitCharsOnColon_length_of_mem (cs : List Char) (h : ':' ∈ cs) :
    2 ≤ (splitCharsOnColon cs).length := by
  induction cs with
  | nil => cases h
  | cons c t ih =>
    by_cases hc : c = ':'
    · have hne := splitCharsOnColon_ne_nil t
      have hpos : 0 < (splitCharsOnColon t).length := List.length_pos.mpr hne
      simp only [splitCharsOnColon, if_pos hc, List.length_cons]
      omega
    · have hm : ':' ∈ t := by
        rcases List.mem_cons.mp h with h1 | h2
        · exact absurd h1.symm hc
        · exact h2
      obtain ⟨g, gs, hr⟩ : ∃ g gs, splitCharsOnColon t = g :: gs := by
        cases hr : splitCharsOnColon t with
        | nil => exact absurd hr (splitCharsOnColon_ne_nil t)
        | cons g gs => exact ⟨g, gs, rfl⟩
      have h2 := ih hm
      rw [hr] at h2
      simp only [splitCharsOnColon, if_neg hc, hr, List.length_cons] at h2 ⊢
      omega

theorem matchesHostRegex_parse (s : String) (h : matchesHostRegex s = true) :
    ∃ hp : String × Nat, parseHostPort s = some hp := by
  by_cases hm : ':' ∈ s.data
  · have hc : s.data.contains ':' = true := by simpa using hm
    have hlen := splitCharsOnColon_length_of_mem s.data hm
    unfold matchesHostRegex at h
    unfold parseHostPort
    simp only [hc, if_true]
    cases hsp : split_colon s with
    | nil => rw [hsp] at h; simp at h
    | cons a t =>
      cases t with
      | nil =>
        exfalso
        have h1 : (split_colon s).length = 1 := by rw [hsp]; rfl
        rw [split_colon, List.length_map] at h1
        omega
      | cons b t2 =>
        cases t2 with
        | nil =>
          rw [hsp] at h
          simp only [Bool.and_eq_true] at h
          refine ⟨(a, str_toNat b), ?_⟩
          simp [hsp, str_toNat?, h.2]
        | cons c t3 =>
          rw [hsp] at h
          simp at h
  · have hc : s.data.contains ':' = false := by simpa using hm
    exact ⟨(s, 8080), by simp only [parseHostPort, hc, Bool.false_eq_true, if_false]⟩

theorem wait_for_connected_iff (connected : Nat → Bool) :
    ∀ fuel k, wait_for_connected connected fuel k = true ↔
      ∃ i, i < fuel ∧ connected (k + i) = true := by
  intro fuel
  induction fuel with
  | zero => intro k; simp [wait_for_connected]
  | succ f ih =>
    intro k
    by_cases hc : connected k = true
    · simp only [wait_for_connected, hc, if_true, true_iff]
      exact ⟨0, Nat.succ_pos f, by simpa using hc⟩
    · have hcf : connected k = false := by revert hc; cases connected k <;> simp
      simp only [wait_for_connected, hcf, Bool.false_eq_true, if_false]
      rw [ih (k + 1)]
      constructor
      · rintro ⟨i, hi, hci⟩
        refine ⟨i + 1, by omega, ?_⟩
        have he : k + (i + 1) = k + 1 + i := by omega
        rw [he]; exact hci
      · rintro ⟨i, hi, hci⟩
        cases i with
        | zero =>
          rw [Nat.add_zero] at hci
          rw [hci] at hcf
          cases hcf
        | succ j =>
          refine ⟨j, by omega, ?_⟩
          have he : k + 1 + j = k + (j + 1) := by omega
          rw [he]; exact hci

theorem get_serial_number_eq_of_connected (minVer fuel : Nat) (env : DeviceEnv)
    (host h : String) (p : Nat)
    (hparse : parseHostPort host = some (h, p))
    (havail : check_device_availability env.ws env.tcp = true)
    (henter : env.clientEnter = .ok)
    (hwait : wait_for_connected env.connected fuel 0 = true) :
    get_serial_number minVer fuel env host =
      ((if env.state == .noSensorInstalled then .error .unsupportedDevice
        else if env.apiVersion < minVer then .error .unsupportedApiVersion
        else .ok env.serialNumber), [.probe h p, .clientConnect h]) := by
  by_cases hs : env.state = RState.noSensorInstalled <;>
    by_cases ha : env.apiVersion < minVer <;>
      simp [get_serial_number, hparse, havail, henter, hwait, hs, ha]

theorem get_serial_number_ok (minVer fuel : Nat) (env : DeviceEnv) (host : String)
    (sn : String) (ev : List NetEvent)
    (h : get_serial_number minVer fuel env host = (.ok sn, ev)) :
    sn = env.serialNumber := by
  unfold get_serial_number at h
  repeat' split at h
  all_goals simp_all

theorem validate_input_ok (minVer fuel : Nat) (env : DeviceEnv) (input : UserInput)
    (r : ValidationResult) (ev : List NetEvent)
    (h : validate_input minVer fuel env input = (.ok r, ev)) :
    r.data.serialNumber = env.serialNumber ∧
    r.data.apiSecretKey = str_upper input.apiSecretKey ∧
    r.data.apiAuthKey = str_upper input.apiAuthKey ∧
    r.data.deviceClass = input.deviceClass ∧
    r.data.host = input.host := by
  unfold validate_input at h
  split at h
  · simp at h
  · split at h
    · simp at h
    · split at h
      · simp at h
      · split at h
        · rename_i sn ev2 heq
          have hs := get_serial_number_ok minVer fuel env input.host sn ev2 heq
          simp only [Prod.mk.injEq] at h
          obtain ⟨h1, _⟩ := h
          injection h1 with h1
          rw [← h1]
          simp [hs]
        · rename_i e ev2 heq
          simp at h

/-- C1: once the device is connected, a reported API version below the
minimum constant is a hard device-capability failure: the flow aborts
entirely with the "unsupported_device" abort result (not an inline
form error), whatever the sensor state. -/
theorem api_version_below_minimum_aborts_flow (minVer fuel : Nat) (env : DeviceEnv)
    (existing : List String) (input : UserInput)
    (hhost : matchesHostRegex input.host = true)
    (hsk : matchesKeyRegex (str_upper input.apiSecretKey) = true)
    (hak : matchesKeyRegex (str_upper input.apiAuthKey) = true)
    (havail : check_device_availability env.ws env.tcp = true)
    (henter : env.clientEnter = .ok)
    (hwait : wait_for_connected env.connected fuel 0 = true)
    (hapi : env.apiVersion < minVer) :
    (async_step_user minVer fuel env existing input).1 = .abortFlow "unsupported_device" := by
  obtain ⟨⟨h, p⟩, hparse⟩ := matchesHostRegex_parse input.host hhost
  have hg := get_serial_number_eq_of_connected minVer fuel env input.host h p hparse
    havail henter hwait
  by_cases hs : env.state = RState.noSensorInstalled <;>
    simp [async_step_user, validate_input, hhost, hsk, hak, hg, hs, hapi, translateUtilExn]

theorem api_version_below_minimum_aborts_flow_witness :
    (async_step_user 2 3 envLowApi [] inputGood).1 = .abortFlow "unsupported_device" :=
  api_version_below_minimum_aborts_flow 2 3 envLowApi [] inputGood
    (by decide) (by decide) (by decide) (by decide) rfl (by decide) (by decide)

/-- C2 counterexample: for the syntactically valid submission
`inputGood` against the unreachable device `envUnreachable`, the flow
surfaces the generic "unknown" error code — not the "cannot_connect"
code the claim requires. -/
theorem unreachable_surfaced_as_unknown_counterexample :
    (async_step_user 2 3 envUnreachable [] inputGood).1 = .showForm [(.base, "unknown")]
    ∧ (FlowResult.showForm [(.base, "unknown")] ≠
        FlowResult.showForm [(.base, "cannot_connect")]) := by
  constructor <;> decide

/-- C2 (amended): with syntactically valid input and an unreachable
address, the utility layer raises the retryable `ConfigEntryNotReady`
not-ready failure (so the submission terminates with a definite
result rather than hanging), but `async_step_user` surfaces it through
the generic "unknown" error code, because `ConfigEntryNotReady` is
only caught by the broad exception handler. -/
theorem unreachable_raises_not_ready_but_flow_shows_unknown (minVer fuel : Nat)
    (env : DeviceEnv) (existing : List String) (input : UserInput)
    (hhost : matchesHostRegex input.host = true)
    (hsk : matchesKeyRegex (str_upper input.apiSecretKey) = true)
    (hak : matchesKeyRegex (str_upper input.apiAuthKey) = true)
    (hun : check_device_availability env.ws env.tcp = false) :
    (∃ m, (validate_input minVer fuel env input).1 =
        .error (.propagated (.configEntryNotReady m)))
    ∧ (async_step_user minVer fuel env existing input).1 = .showForm [(.base, "unknown")] := by
  obtain ⟨⟨h, p⟩, hparse⟩ := matchesHostRegex_parse input.host hhost
  have hg : get_serial_number minVer fuel env input.host =
      (.error (.configEntryNotReady (notAvailableMsg h p)), [.probe h p]) := by
    simp [get_serial_number, hparse, hun]
  refine ⟨⟨notAvailableMsg h p, ?_⟩, ?_⟩ <;>
    simp [async_step_user, validate_input, hhost, hsk, hak, hg, translateUtilExn]

theorem unreachable_raises_not_ready_but_flow_shows_unknown_witness :
    (∃ m, (validate_input 2 3 envUnreachable inputGood).1 =
        .error (.propagated (.configEntryNotReady m)))
    ∧ (async_step_user 2 3 envUnreachable [] inputGood).1 = .showForm [(.base, "unknown")] :=
  unreachable_raises_not_ready_but_flow_shows_unknown 2 3 envUnreachable [] inputGood
    (by decide) (by decide) (by decide) (by decide)

/-- C3: a reachable, connecting device whose state reports no sensor
installed makes the flow abort with the "unsupported_device" outcome,
for every submission whose fields pass the format checks (i.e.
regardless of which credentials were supplied). -/
theorem no_sensor_aborts_unsupported_device (minVer fuel : Nat) (env : DeviceEnv)
    (existing : List String) (input : UserInput)
    (hhost : matchesHostRegex input.host = true)
    (hsk : matchesKeyRegex (str_upper input.apiSecretKey) = true)
    (hak : matchesKeyRegex (str_upper input.apiAuthKey) = true)
    (havail : check_device_availability env.ws env.tcp = true)
    (henter : env.clientEnter = .ok)
    (hwait : wait_for_connected env.connected fuel 0 = true)
    (hstate : env.state = .noSensorInstalled) :
    (async_step_user minVer fuel env existing input).1 = .abortFlow "unsupported_device" := by
  obtain ⟨⟨h, p⟩, hparse⟩ := matchesHostRegex_parse input.host hhost
  have hg := get_serial_number_eq_of_connected minVer fuel env input.host h p hparse
    havail henter hwait
  simp [async_step_user, validate_input, hhost, hsk, hak, hg, hstate, translateUtilExn]

theorem no_sensor_aborts_unsupported_device_witness :
    (async_step_user 2 3 envNoSensor [] inputGood).1 = .abortFlow "unsupported_device" :=
  no_sensor_aborts_unsupported_device 2 3 envNoSensor [] inputGood
    (by decide) (by decide) (by decide) (by decide) rfl (by decide) rfl

/-- C4: each key is uppercased before being checked against the
64-character uppercase-hex pattern; a failing secret key and a failing
auth key produce distinct per-field error codes; and a successful
validation stores both keys uppercased together with the user-selected
device class. -/
theorem key_uppercase_validation_and_storage (minVer fuel : Nat) (env : DeviceEnv)
    (existing : List String) (input : UserInput) :
    (matchesHostRegex input.host = true →
      matchesKeyRegex (str_upper input.apiSecretKey) = false →
      (async_step_user minVer fuel env existing input).1 =
        .showForm [(.apiSecretKey, "secret__api_secret_key_invalid")])
    ∧ (matchesHostRegex input.host = true →
      matchesKeyRegex (str_upper input.apiSecretKey) = true →
      matchesKeyRegex (str_upper input.apiAuthKey) = false →
      (async_step_user minVer fuel env existing input).1 =
        .showForm [(.apiAuthKey, "secret__api_auth_key_invalid")])
    ∧ (∀ r ev, validate_input minVer fuel env input = (.ok r, ev) →
      r.data.apiSecretKey = str_upper input.apiSecretKey ∧
      r.data.apiAuthKey = str_upper input.apiAuthKey ∧
      r.data.deviceClass = input.deviceClass) := by
  refine ⟨?_, ?_, ?_⟩
  · intro hh hs
    simp [async_step_user, validate_input, hh, hs]
  · intro hh hs ha
    simp [async_step_user, validate_input, hh, hs, ha]
  · intro r ev h
    have hr := validate_input_ok minVer fuel env input r ev h
    exact ⟨hr.2.1, hr.2.2.1, hr.2.2.2.1⟩

theorem key_uppercase_validation_and_storage_witness :
    (async_step_user 2 3 envReachOk [] inputBadSecret).1 =
      .showForm [(.apiSecretKey, "secret__api_secret_key_invalid")]
    ∧ (async_step_user 2 3 envReachOk [] inputBadAuth).1 =
      .showForm [(.apiAuthKey, "secret__api_auth_key_invalid")]
    ∧ (recLower.data.apiSecretKey = str_upper inputLower.apiSecretKey ∧
       recLower.data.apiAuthKey = str_upper inputLower.apiAuthKey ∧
       recLower.data.deviceClass = inputLower.deviceClass) :=
  ⟨(key_uppercase_validation_and_storage 2 3 envReachOk [] inputBadSecret).1
      (by decide) (by decide),
   (key_uppercase_validation_and_storage 2 3 envReachOk [] inputBadAuth).2.1
      (by decide) (by decide) (by decide),
   (key_uppercase_validation_and_storage 2 3 envReachOk [] inputLower).2.2 recLower
      [.probe "192.168.1.20" 8080, .clientConnect "192.168.1.20"] rfl⟩

/-- C5: a host string failing the host pattern makes the flow report
the "host_invalid" error code on the host field, with no network
activity whatsoever. -/
theorem invalid_host_reports_error_without_network (minVer fuel : Nat) (env : DeviceEnv)
    (existing : List String) (input : UserInput)
    (h : matchesHostRegex input.host = false) :
    async_step_user minVer fuel env existing input =
      (.showForm [(.host, "host_invalid")], []) := by
  simp [async_step_user, validate_input, h]

theorem invalid_host_reports_error_without_network_witness :
    async_step_user 2 3 envReachOk [] inputBadHost =
      (.showForm [(.host, "host_invalid")], []) :=
  invalid_host_reports_error_without_network 2 3 envReachOk [] inputBadHost (by decide)

/-- C6: a created entry's unique id is the device-reported serial
number and is not among the already-configured serial numbers (so the
no-duplicate-serial invariant is preserved), while a successful
validation whose serial number is already configured aborts with
"already_configured" instead of creating a second entry. -/
theorem serial_number_unique_identity_invariant (minVer fuel : Nat) (env : DeviceEnv)
    (existing : List String) (input : UserInput) :
    (∀ uid t d, (async_step_user minVer fuel env existing input).1 = .createEntry uid t d →
      uid = env.serialNumber ∧ d.serialNumber = env.serialNumber ∧ uid ∉ existing ∧
      (existing.Nodup → (uid :: existing).Nodup))
    ∧ (∀ r ev, validate_input minVer fuel env input = (.ok r, ev) →
      env.serialNumber ∈ existing →
      (async_step_user minVer fuel env existing input).1 = .abortFlow "already_configured") := by
  constructor
  · intro uid t d hstep
    rcases hv : validate_input minVer fuel env input with ⟨res, ev⟩
    cases res with
    | error e =>
      cases e with
      | propagated e2 => simp [async_step_user, hv] at hstep
      | _ => simp [async_step_user, hv] at hstep
    | ok r =>
      have hr := validate_input_ok minVer fuel env input r ev hv
      by_cases hmem : r.data.serialNumber ∈ existing
      · simp [async_step_user, hv, hmem] at hstep
      · simp [async_step_user, hv, hmem] at hstep
        obtain ⟨h1, _, h3⟩ := hstep
        refine ⟨?_, ?_, ?_, ?_⟩
        · rw [← h1, hr.1]
        · rw [← h3, hr.1]
        · rw [← h1]; exact hmem
        · intro hnd
          exact List.nodup_cons.mpr ⟨by rw [← h1]; exact hmem, hnd⟩
  · intro r ev hok hmem
    have hr := validate_input_ok minVer fuel env input r ev hok
    have hmem2 : r.data.serialNumber ∈ existing := by rw [hr.1]; exact hmem
    simp [async_step_user, hok, hmem2]

theorem serial_number_unique_identity_invariant_witness :
    ("SN-1" = envReachOk.serialNumber ∧ dataGood.serialNumber = envReachOk.serialNumber ∧
      "SN-1" ∉ ([] : List String) ∧ (([] : List String).Nodup → ["SN-1"].Nodup))
    ∧ (async_step_user 2 3 envReachOk ["SN-1"] inputGood).1 = .abortFlow "already_configured" :=
  ⟨(serial_number_unique_identity_invariant 2 3 envReachOk [] inputGood).1 "SN-1"
      "Remootio Device (Host: 192.168.1.20, S/N: SN-1)" dataGood (by decide),
   (serial_number_unique_identity_invariant 2 3 envReachOk ["SN-1"] inputGood).2 recGood
      [.probe "192.168.1.20" 8080, .clientConnect "192.168.1.20"] rfl (by decide)⟩

/-- C7: the connect wait polls the connected flag once per tick under
the overall timeout (fuel many polls) and returns true exactly when
the flag is observed within it; when it returns false,
`get_serial_number` raises the retryable not-ready failure instead of
proceeding to the device checks. -/
theorem connect_wait_timeout_behavior (minVer fuel : Nat) (env : DeviceEnv) (host : String) :
    (wait_for_connected env.connected fuel 0 = true ↔
      ∃ i, i < fuel ∧ env.connected i = true)
    ∧ (∀ (h : String) (p : Nat), parseHostPort host = some (h, p) →
      check_device_availability env.ws env.tcp = true →
      env.clientEnter = .ok →
      wait_for_connected env.connected fuel 0 = false →
      (get_serial_number minVer fuel env host).1 =
        .error (.configEntryNotReady "Failed to connect to device")) := by
  constructor
  · simpa using wait_for_connected_iff env.connected fuel 0
  · intro h p hparse havail henter hwait
    simp [get_serial_number, hparse, havail, henter, hwait]

theorem connect_wait_timeout_behavior_witness :
    (get_serial_number 2 3 envNeverConnects "1.2.3.4").1 =
      .error (.configEntryNotReady "Failed to connect to device") :=
  (connect_wait_timeout_behavior 2 3 envNeverConnects "1.2.3.4").2 "1.2.3.4" 8080
    (by decide) (by decide) rfl (by decide)

/-- C8: a host string containing no colon is probed on port 8080,
while a host:port string is probed on the parsed numeric suffix. -/
theorem host_port_default_and_suffix (minVer fuel : Nat) (env : DeviceEnv)
    (s hs ps : String) (n : Nat) :
    (':' ∉ s.data → parseHostPort s = some (s, 8080) ∧
      (get_serial_number minVer fuel env s).2.head? = some (.probe s 8080))
    ∧ (split_colon s = [hs, ps] → str_toNat? ps = some n →
      parseHostPort s = some (hs, n) ∧
      (get_serial_number minVer fuel env s).2.head? = some (.probe hs n)) := by
  constructor
  · intro hm
    have hc : s.data.contains ':' = false := by simpa using hm
    have hparse : parseHostPort s = some (s, 8080) := by
      simp only [parseHostPort, hc, Bool.false_eq_true, if_false]
    refine ⟨hparse, ?_⟩
    by_cases ha : check_device_availability env.ws env.tcp
    · cases hce : env.clientEnter <;>
        by_cases hw : wait_for_connected env.connected fuel 0 <;>
        by_cases hst : env.state = RState.noSensorInstalled <;>
        by_cases hv2 : env.apiVersion < minVer <;>
        simp [get_serial_number, hparse, ha, hce, hw, hst, hv2]
    · simp [get_serial_number, hparse, ha]
  · intro hsp htn
    have hm : ':' ∈ s.data := by
      by_contra hm
      have h1 := splitCharsOnColon_of_not_mem s.data hm
      have h2 : (split_colon s).length = 1 := by
        rw [split_colon, h1]; rfl
      rw [hsp] at h2
      simp at h2
    have hc : s.data.contains ':' = true := by simpa using hm
    have hparse : parseHostPort s = some (hs, n) := by
      simp only [parseHostPort, hc, if_true, hsp, htn]
    refine ⟨hparse, ?_⟩
    by_cases ha : check_device_availability env.ws env.tcp
    · cases hce : env.clientEnter <;>
        by_cases hw : wait_for_connected env.connected fuel 0 <;>
        by_cases hst : env.state = RState.noSensorInstalled <;>
        by_cases hv2 : env.apiVersion < minVer <;>
        simp [get_serial_number, hparse, ha, hce, hw, hst, hv2]
    · simp [get_serial_number, hparse, ha]

theorem host_port_default_and_suffix_witness :
    (parseHostPort "10.0.0.7" = some ("10.0.0.7", 8080) ∧
      (get_serial_number 2 3 envReachOk "10.0.0.7").2.head? = some (.probe "10.0.0.7" 8080))
    ∧ (parseHostPort "gate.local:9000" = some ("gate.local", 9000) ∧
      (get_serial_number 2 3 envReachOk "gate.local:9000").2.head? =
        some (.probe "gate.local" 9000)) :=
  ⟨(host_port_default_and_suffix 2 3 envReachOk "10.0.0.7" "x" "x" 0).1 (by decide),
   (host_port_default_and_suffix 2 3 envReachOk "gate.local:9000" "gate.local" "9000" 9000).2
      (by decide) (by decide)⟩

/-- C9: `check_device_availability` always returns a boolean — every
exception reaching the outer handler yields false — and returns true
exactly when the WebSocket probe succeeds or, after the fallback is
triggered by a client/timeout error, the TCP probe reports code 0. -/
theorem check_device_availability_never_raises (ws : WsOutcome) (tcp : TcpOutcome) :
    (check_device_availability ws tcp = true ↔
      (ws = .success ∨ ((ws = .clientError ∨ ws = .timeoutError) ∧ tcp = .result 0)))
    ∧ (∀ e : Unit, check_device_availability_inner ws tcp = .error e →
      check_device_availability ws tcp = false) := by
  cases ws <;> cases tcp <;>
    simp [check_device_availability, check_device_availability_inner]

theorem check_device_availability_never_raises_witness :
    check_device_availability .raisesOther (.result 0) = false :=
  (check_device_availability_never_raises .raisesOther (.result 0)).2 () rfl

/-- C10 counterexample: `envLowApi` is connected and reports a serial
number different from the expected one, yet `create_client` raises the
unsupported-API-version error — not `AssertionError` — because the
API-version check runs before the assertion. -/
theorem create_client_mismatch_not_assertion_counterexample :
    create_client 2 3 envLowApi (some "SN-B") = .error .unsupportedApiVersion
    ∧ ((Except.error UtilExn.unsupportedApiVersion : Except UtilExn ClientHandle) ≠
        Except.error UtilExn.assertionError) := by
  refine ⟨rfl, ?_⟩
  intro hcontr
  injection hcontr with h2
  exact absurd h2 (by decide)

/-- C10 (amended): once the client is connected and passes the
API-version check, the assertion guards the serial number: an expected
serial number differing from the device-reported one raises
`AssertionError`, and any client returned against an expected serial
number carries exactly that serial number. -/
theorem create_client_serial_assertion_guard (minVer fuel : Nat) (env : DeviceEnv)
    (s : String) :
    (env.clientEnter = .ok →
      wait_for_connected env.connected fuel 0 = true →
      minVer ≤ env.apiVersion →
      s ≠ env.serialNumber →
      create_client minVer fuel env (some s) = .error .assertionError)
    ∧ (∀ c, create_client minVer fuel env (some s) = .ok c → c.serialNumber = s) := by
  constructor
  · intro henter hwait hapi hne
    have hlt : ¬ env.apiVersion < minVer := by omega
    simp [create_client, henter, hwait, hlt, hne]
  · intro c h
    unfold create_client at h
    repeat' split at h
    all_goals try simp_all
    all_goals rw [← h]

theorem create_client_serial_assertion_guard_witness :
    create_client 2 3 envReachOk (some "SN-X") = .error .assertionError
    ∧ ({ serialNumber := "SN-1" } : ClientHandle).serialNumber = "SN-1" :=
  ⟨(create_client_serial_assertion_guard 2 3 envReachOk "SN-X").1 rfl
      (by decide) (by decide) (by decide),
   (create_client_serial_assertion_guard 2 3 envReachOk "SN-1").2
      { serialNumber := "SN-1" } rfl⟩

end Remootio
